import Mathlib

/-!
Shallow embedding of the Burst-Fit-V2 core: the pulse-burst timing model
(`burst_function.py`, `constants.py`), the Gaussian-with-exponential-tail
pulse shape (`pulse_profiles.py`), the trace container (`data_trace.py`)
and the regression engine's statistics and quality gate (`fitter.py`).

Machine floats are embedded as real numbers (`ℝ`) where analytic facts
(continuity, derivatives, `exp`) are at stake, and as rationals (`ℚ`) in the
purely arithmetic fitter/trace layer, so statements there can be evaluated on
concrete inputs.  Fallible Python code (a `raise` statement) is embedded as a
function returning `Except`.
-/

/- ===== constants.py ===== -/

/-- Embeds `PERIOD` (constants.py): the length of one group of pulses, in seconds. -/
noncomputable def PERIOD : ℝ := 18.885e-9

/-- Embeds `DELTA_1` (constants.py): time between pulse 0 and pulse 1 of a group. -/
noncomputable def DELTA_1 : ℝ := 4.98375e-9

/-- Embeds `DELTA_2` (constants.py): time between pulse 1 and pulse 2 of a group. -/
noncomputable def DELTA_2 : ℝ := 4.73250e-9

/-- Embeds `DELTA_3` (constants.py): time between pulse 2 and pulse 3 of a group. -/
noncomputable def DELTA_3 : ℝ := 4.40375e-9

/-- Embeds `TAU_1 = DELTA_1` (constants.py). -/
noncomputable def TAU_1 : ℝ := DELTA_1

/-- Embeds `TAU_2 = DELTA_1 + DELTA_2` (constants.py). -/
noncomputable def TAU_2 : ℝ := DELTA_1 + DELTA_2

/-- Embeds `TAU_3 = DELTA_1 + DELTA_2 + DELTA_3` (constants.py). -/
noncomputable def TAU_3 : ℝ := DELTA_1 + DELTA_2 + DELTA_3

/-- Embeds `PULSE_WIDTH` (constants.py): approximate width of a pulse on the scope. -/
noncomputable def PULSE_WIDTH : ℝ := 4.72e-9

/-- Embeds the `TraceType` enum (constants.py). -/
inductive TraceType where
  | PUMP
  | REFLECTED
  | TRANSMITTED
deriving DecidableEq

/-- Embeds the `TRACE_DELAY_IDX` dictionary (constants.py): every trace type is
mapped to a zero cable delay in the current source. -/
noncomputable def TRACE_DELAY_IDX : TraceType → ℝ
  | TraceType.PUMP => 0
  | TraceType.REFLECTED => 0
  | TraceType.TRANSMITTED => 0

/- ===== pulse_profiles.py : GaussianExp ===== -/

/-- Embeds `np.heaviside x h`: `0` for `x < 0`, `h` at `x = 0`, `1` for `x > 0`. -/
noncomputable def heaviside (x h : ℝ) : ℝ :=
  if x < 0 then 0 else if x = 0 then h else 1

/-- Embeds the mutable state of a `GaussianExp` object (pulse_profiles.py):
the stored parameter pair `(sigma, lambda)`, the precomputed `delta_t` and `h2`
values, and the `make_performant` flag. -/
structure GaussianExp where
  parameters : ℝ × ℝ
  delta_t : ℝ
  h2 : ℝ
  make_performant : Bool

/-- Embeds `GaussianExp.__init__` (pulse_profiles.py lines 62-78).  The call
`np.loadtxt(filepath)` is external file I/O, so the loaded parameter pair is
taken as an argument.  `make_performant` starts out `False`; `delta_t` and `h2`
are precomputed from the loaded parameters. -/
noncomputable def GaussianExp.init (loaded : ℝ × ℝ) : GaussianExp :=
  { parameters := loaded
    delta_t := loaded.2 * loaded.1 ^ 2
    h2 := Real.exp (-(loaded.2 * loaded.1 ^ 2) ^ 2 / (2 * loaded.1 ^ 2))
    make_performant := false }

/-- Auxiliary name for the differentiability-condition offset computed in the
non-performant branch of `GaussianExp.pulse_shape` (pulse_profiles.py line 98):
`delta_t = lam * sig ** 2`. -/
noncomputable def delta_t_cond (sig lam : ℝ) : ℝ := lam * sig ^ 2

/-- Auxiliary name for the continuity-condition value computed in the
non-performant branch of `GaussianExp.pulse_shape` (pulse_profiles.py line 100):
`h2 = np.exp(-delta_t ** 2 / (2 * sig ** 2))`. -/
noncomputable def h2_cond (sig lam : ℝ) : ℝ :=
  Real.exp (-(delta_t_cond sig lam) ^ 2 / (2 * sig ^ 2))

/-- Embeds the Gaussian branch `gaussian = np.exp(-t**2 / (2 * sig**2))`
of `GaussianExp.pulse_shape` (pulse_profiles.py line 104). -/
noncomputable def gaussian_branch (sig t : ℝ) : ℝ :=
  Real.exp (-t ^ 2 / (2 * sig ^ 2))

/-- Embeds the tail branch `exp_tail = h2 * np.exp(-lam * (t - delta_t))`
of `GaussianExp.pulse_shape` (pulse_profiles.py line 105), with `delta_t` and
`h2` given by the differentiability and continuity conditions. -/
noncomputable def exp_tail_branch (sig lam t : ℝ) : ℝ :=
  h2_cond sig lam * Real.exp (-lam * (t - delta_t_cond sig lam))

/-- Embeds `GaussianExp.pulse_shape` (pulse_profiles.py lines 80-113).
When `make_performant` is set, `sig` and `lam` are read from the stored
`self.parameters` and `delta_t`, `h2` from the precomputed fields; otherwise
they come from the explicit `params` argument and are recomputed.  The
`np.isfinite` overflow guard cannot fire over `ℝ` (where `exp` is total and
finite), so no error path remains. -/
noncomputable def GaussianExp.pulse_shape (self : GaussianExp) (t : ℝ)
    (params : ℝ × ℝ) : ℝ :=
  let sig := if self.make_performant then self.parameters.1 else params.1
  let lam := if self.make_performant then self.parameters.2 else params.2
  let delta_t := if self.make_performant then self.delta_t else delta_t_cond sig lam
  let h2 := if self.make_performant then self.h2 else h2_cond sig lam
  let step_function := heaviside (t - delta_t) h2
  let gaussian := Real.exp (-t ^ 2 / (2 * sig ^ 2))
  let exp_tail := h2 * Real.exp (-lam * (t - delta_t))
  gaussian * (1 - step_function) + exp_tail * step_function

/-- Embeds `GaussianExp.norm_pulse_shape` (pulse_profiles.py lines 115-120):
the override skips the normalization division since the Gaussian core is
already peak-normalized. -/
noncomputable def GaussianExp.norm_pulse_shape (self : GaussianExp) (t : ℝ)
    (params : ℝ × ℝ) : ℝ :=
  self.pulse_shape t params

/- ===== burst_function.py : BurstFunction ===== -/

/-- Embeds `BurstFunction.tau_function` (burst_function.py lines 43-56):
intra-group timing offset picked by the pulse index mod 4.  `np.mod(n, 4)`
agrees with the Euclidean `n % 4` on `ℤ` because the divisor is positive. -/
noncomputable def tau_function (n : ℤ) : ℝ :=
  (if n % 4 = 1 then (1 : ℝ) else 0) * TAU_1
    + (if n % 4 = 2 then (1 : ℝ) else 0) * TAU_2
    + (if n % 4 = 3 then (1 : ℝ) else 0) * TAU_3

/-- Embeds `BurstFunction.get_time_from_pulses` (burst_function.py lines 58-59):
`PERIOD * np.floor_divide(n, 4) + tau_function(n)`.  `np.floor_divide(n, 4)`
agrees with the Euclidean `n / 4` on `ℤ` because the divisor is positive. -/
noncomputable def get_time_from_pulses (n : ℤ) : ℝ :=
  PERIOD * ((n / 4 : ℤ) : ℝ) + tau_function n

/-- Embeds the mutable state of a `BurstFunction` object (burst_function.py). -/
structure BurstFunction where
  _t0 : ℝ
  _n_pulses : ℤ
  ptype : TraceType
  pulse_shape : GaussianExp
  t_start : ℝ
  t_end : ℝ

/-- Embeds `BurstFunction.__init__` (burst_function.py lines 9-19).  The
pulse-shape parameters read off disk by `GaussianExp(PULSE_PARAM_IDX[ptype])`
are external file contents, taken here as the `loaded_params` argument. -/
noncomputable def BurstFunction.init (t_0 : ℝ) (n_pulses : ℤ)
    (pulse_type : TraceType) (loaded_params : ℝ × ℝ) : BurstFunction :=
  let t_start := t_0 - PULSE_WIDTH / 2
  { _t0 := t_0
    _n_pulses := n_pulses
    ptype := pulse_type
    pulse_shape := GaussianExp.init loaded_params
    t_start := t_start
    t_end := t_start + get_time_from_pulses n_pulses }

/-- A dynamically typed Python argument, as passed to the `BurstFunction`
mutators: a float (embedded as a real number), an int, or a value of any
other type. -/
inductive PyVal where
  | float (x : ℝ)
  | int (n : ℤ)
  | other

/-- Embeds `BurstFunction.set_t0` (burst_function.py lines 27-30): rejects
arguments failing `isinstance(value, float)`, stores the value, and touches no
other field (in particular `t_start` and `t_end` are NOT re-derived). -/
noncomputable def BurstFunction.set_t0 (self : BurstFunction) (value : PyVal) :
    Except String BurstFunction :=
  match value with
  | PyVal.float x => Except.ok { self with _t0 := x }
  | _ => Except.error "`value` must be a float."

/-- Embeds `BurstFunction.set_n_pulses` (burst_function.py lines 32-35): rejects
arguments failing `isinstance(value, int)`, stores the value, and touches no
other field (in particular `t_start` and `t_end` are NOT re-derived). -/
noncomputable def BurstFunction.set_n_pulses (self : BurstFunction) (value : PyVal) :
    Except String BurstFunction :=
  match value with
  | PyVal.int n => Except.ok { self with _n_pulses := n }
  | _ => Except.error "`value` must be an integer."

/-- Embeds `BurstFunction.set_pulse_params` (burst_function.py lines 37-41):
overwrites `self.pulse_shape.parameters` with the new pair, leaving the
precomputed `delta_t` and `h2` fields untouched.  The length check
`len(params) != self.pulse_shape.param_num` is vacuous here because the
parameter pair has the declared size 2 by type. -/
noncomputable def BurstFunction.set_pulse_params (self : BurstFunction)
    (params : ℝ × ℝ) : BurstFunction :=
  { self with pulse_shape := { self.pulse_shape with parameters := params } }

/-- Embeds `BurstFunction.get_pulse_matrix` (burst_function.py lines 61-78):
row `i` (one per sample time), column `j` (one per pulse index in
`np.arange(0, n_pulses)`, empty when `n_pulses <= 0`), entry
`norm_pulse_shape(time_i - (t0 - TRACE_DELAY_IDX[ptype]) - time_from_pulses(j))`
evaluated at the stored shape parameters. -/
noncomputable def BurstFunction.get_pulse_matrix (self : BurstFunction)
    (time_vals : List ℝ) : List (List ℝ) :=
  let n_values := (List.range self._n_pulses.toNat).map (fun j : ℕ => (j : ℤ))
  let total_tshift := self._t0 - TRACE_DELAY_IDX self.ptype
  time_vals.map (fun t =>
    n_values.map (fun n =>
      self.pulse_shape.norm_pulse_shape (t - total_tshift - get_time_from_pulses n)
        self.pulse_shape.parameters))

/-- Dot product of two real lists (`np.ndarray.dot` of a matrix row with the
amplitude vector). -/
noncomputable def dotList (xs ys : List ℝ) : ℝ :=
  ((xs.zip ys).map (fun p => p.1 * p.2)).sum

/-- Embeds `BurstFunction.burst_function` (burst_function.py lines 80-88):
raises when `len(amplitudes) != self._n_pulses`, otherwise returns
`get_pulse_matrix(time_values).dot(amplitudes)`. -/
noncomputable def BurstFunction.burst_function (self : BurstFunction)
    (time_values amplitudes : List ℝ) : Except String (List ℝ) :=
  if (amplitudes.length : ℤ) ≠ self._n_pulses then
    Except.error "Number of amplitudes must equal number of pulses."
  else
    Except.ok ((self.get_pulse_matrix time_values).map (fun row => dotList row amplitudes))

/- ===== data_trace.py : DataTrace ===== -/

/-- Embeds the state of a `DataTrace` object (data_trace.py), with values in
`ℚ` (exact machine arithmetic is not at stake in the trace container). -/
structure DataTrace where
  trace_len : ℕ
  _time_values : List ℚ
  _data_values : List ℚ
  time_units : String
  data_units : String
deriving DecidableEq

/-- Embeds `DataTrace.__init__` (data_trace.py lines 10-26): rejects arrays of
different sizes, otherwise stores both (the 1-D check of `_set_arr` is vacuous
for lists). -/
def DataTrace.init (time_values data_values : List ℚ)
    (time_units data_units : String) : Except String DataTrace :=
  if time_values.length ≠ data_values.length then
    Except.error "`time_values` and `data_values` must be the same size."
  else
    Except.ok { trace_len := time_values.length
                _time_values := time_values
                _data_values := data_values
                time_units := time_units
                data_units := data_units }

/-- Numpy boolean-mask indexing `xs[mask]`: keep the elements of `xs` whose
mask entry is `true`. -/
def maskSelect {α : Type} (mask : List Bool) (xs : List α) : List α :=
  ((mask.zip xs).filter (fun p => p.1)).map (fun p => p.2)

/-- Embeds `DataTrace.make_restricted` (data_trace.py lines 46-54): build the
boolean mask `t_start <= t <= t_end` over the time values, apply it to both
arrays, and construct a fresh `DataTrace` carrying the same units. -/
def DataTrace.make_restricted (self : DataTrace) (t_start t_end : ℚ) :
    Except String DataTrace :=
  let idx := self._time_values.map (fun t => decide (t_start ≤ t) && decide (t ≤ t_end))
  let new_times := maskSelect idx self._time_values
  let new_data := maskSelect idx self._data_values
  DataTrace.init new_times new_data self.time_units self.data_units

/- ===== fitter.py : Fitter ===== -/

/-- Embeds the fields of the external
`statsmodels.regression.linear_model.RegressionResults` object that fitter.py
reads: the fitted amplitudes `params`, `rsquared`, the residual vector `resid`
and the residual degrees of freedom `df_resid`. -/
structure RegressionResults where
  params : List ℚ
  rsquared : ℚ
  resid : List ℚ
  df_resid : ℚ
deriving DecidableEq

/-- Embeds the payload of the `FitQualityError` raised in
`Fitter.linear_regress_burst` (fitter.py lines 84-89): the message string
interpolates the fitter's `name`, the computed `rsquared` and the configured
threshold, modeled here as structured fields. -/
structure FitQualityError where
  name : String
  rsquared : ℚ
  thresh : ℚ
deriving DecidableEq

/-- Embeds the mutable state of a `Fitter` object (fitter.py lines 32-48). -/
structure Fitter where
  results : Option RegressionResults
  name : String
  _fit_qual_thresh : ℚ
deriving DecidableEq

/-- Embeds `Fitter.set_rsquared_thresh` (fitter.py lines 50-62); the
`isinstance(thresh, float)` check is vacuous over `ℚ`. -/
def Fitter.set_rsquared_thresh (self : Fitter) (thresh : ℚ) : Except String Fitter :=
  if ¬ (0 ≤ thresh ∧ thresh ≤ 1) then
    Except.error "Threshold value must be between 0 and 1"
  else
    Except.ok { self with _fit_qual_thresh := thresh }

/-- Embeds `Fitter.linear_regress_burst` (fitter.py lines 64-91).  The
least-squares solve `sm.OLS(data_vals, regressors).fit()` is an external
statsmodels call, abstracted as the `results` argument; the function first
stores `self.results = results`, then raises `FitQualityError` when
`results.rsquared` is below the threshold, and otherwise returns the results.
The returned pair is (updated fitter state, outcome). -/
def Fitter.linear_regress_burst (self : Fitter) (results : RegressionResults) :
    Fitter × Except FitQualityError RegressionResults :=
  let self' := { self with results := some results }
  if results.rsquared < self._fit_qual_thresh then
    (self', Except.error { name := self.name
                           rsquared := results.rsquared
                           thresh := self._fit_qual_thresh })
  else
    (self', Except.ok results)

/-- Embeds `Fitter.get_chi2_stats` (fitter.py lines 93-102): raises when no fit
has been stored; otherwise `chi2 = sum(resid**2 / errs**2)`,
`red_chi2 = chi2 / df_resid`, `p = 1 - chi2.cdf(chi2_val, df_resid)`.  The
chi-squared CDF `scipy.stats.chi2.cdf` is an external scipy call, abstracted
as the `chi2_cdf` argument. -/
def Fitter.get_chi2_stats (self : Fitter) (errs : List ℚ)
    (chi2_cdf : ℚ → ℚ → ℚ) : Except String (ℚ × ℚ) :=
  match self.results with
  | none => Except.error "`self.results` is None. Must perform fit before calculating test statistics."
  | some results =>
      let chi2_val := ((results.resid.zip errs).map (fun p => p.1 ^ 2 / p.2 ^ 2)).sum
      let red_chi2_val := chi2_val / results.df_resid
      let p_val := 1 - chi2_cdf chi2_val results.df_resid
      Except.ok (red_chi2_val, p_val)

/-- Embeds `Fitter.get_r2` (fitter.py lines 124-133):
`1 - sum((data - fvals)**2) / sum((data - mean(data))**2)`. -/
def Fitter.get_r2 (data_values function_values : List ℚ) : ℚ :=
  let sum_sq_res := ((data_values.zip function_values).map (fun p => (p.1 - p.2) ^ 2)).sum
  let sum_sq_tot := (data_values.map (fun x => (x - data_values.sum / data_values.length) ^ 2)).sum
  1 - sum_sq_res / sum_sq_tot

/-- Embeds `Fitter.get_adj_r2` (fitter.py lines 135-139): the source computes
`1 - (1 - r2) * (n - 1) / (n - pulse_num + 1)` unconditionally and contains no
raise statement; the `Except` return type records that no error path exists. -/
def Fitter.get_adj_r2 (data_values function_values : List ℚ) (pulse_num : ℤ) :
    Except String ℚ :=
  let r2_val := Fitter.get_r2 data_values function_values
  Except.ok (1 - (1 - r2_val) * ((data_values.length : ℚ) - 1)
    / ((data_values.length : ℚ) - (pulse_num : ℚ) + 1))

/- ===== spec-side formulas (independent re-statements used by theorems) ===== -/

/-- Spec formula for the chi-squared statistic: the indexed sum
`sum over i of resid_i^2 / err_i^2`. -/
def chiSquaredSpec (resid errs : List ℚ) : ℚ :=
  ∑ i ∈ Finset.range resid.length, (resid.getD i 0) ^ 2 / (errs.getD i 0) ^ 2

/-- Spec formula for the coefficient of determination:
`1 - SS_res / SS_tot` with indexed sums. -/
def r2Spec (observed modeled : List ℚ) : ℚ :=
  let n := observed.length
  let mean := observed.sum / (n : ℚ)
  1 - (∑ i ∈ Finset.range n, (observed.getD i 0 - modeled.getD i 0) ^ 2)
    / (∑ i ∈ Finset.range n, (observed.getD i 0 - mean) ^ 2)

/-- A burst model whose pulse shape has been switched to fast mode, as a caller
does with the attribute assignment `self.make_performant = True` described in
pulse_profiles.py lines 69-72. -/
noncomputable def performantBurst : BurstFunction :=
  { BurstFunction.init 0 1 TraceType.PUMP (1, 1) with
      pulse_shape :=
        { (BurstFunction.init 0 1 TraceType.PUMP (1, 1)).pulse_shape with
            make_performant := true } }

/- ===== helper lemmas ===== -/

theorem tau_function_nonneg (n : ℤ) : 0 ≤ tau_function n := by
  unfold tau_function TAU_1 TAU_2 TAU_3 DELTA_1 DELTA_2 DELTA_3
  split <;> split <;> split <;> norm_num

theorem get_time_from_pulses_nonneg (n : ℕ) : 0 ≤ get_time_from_pulses (n : ℤ) := by
  have h0 : (0 : ℤ) ≤ (n : ℤ) / 4 := Int.ediv_nonneg (by positivity) (by norm_num)
  have h1 : (0 : ℝ) ≤ PERIOD * (((n : ℤ) / 4 : ℤ) : ℝ) := by
    apply mul_nonneg
    · unfold PERIOD; norm_num
    · exact_mod_cast h0
  have h2 := tau_function_nonneg (n : ℤ)
  unfold get_time_from_pulses
  linarith

theorem get_time_from_pulses_succ_lt (n : ℕ) :
    get_time_from_pulses (n : ℤ) < get_time_from_pulses ((n : ℤ) + 1) := by
  have h4 : (n : ℤ) % 4 = 0 ∨ (n : ℤ) % 4 = 1 ∨ (n : ℤ) % 4 = 2 ∨ (n : ℤ) % 4 = 3 := by
    omega
  rcases h4 with h | h | h | h
  · have hm : ((n : ℤ) + 1) % 4 = 1 := by omega
    have hd : ((n : ℤ) + 1) / 4 = (n : ℤ) / 4 := by omega
    have ht : (0 : ℝ) < TAU_1 := by unfold TAU_1 DELTA_1; norm_num
    simp only [get_time_from_pulses, tau_function, h, hm, hd]
    norm_num
    linarith
  · have hm : ((n : ℤ) + 1) % 4 = 2 := by omega
    have hd : ((n : ℤ) + 1) / 4 = (n : ℤ) / 4 := by omega
    have ht : TAU_1 < TAU_2 := by unfold TAU_1 TAU_2 DELTA_1 DELTA_2; norm_num
    simp only [get_time_from_pulses, tau_function, h, hm, hd]
    norm_num
    linarith
  · have hm : ((n : ℤ) + 1) % 4 = 3 := by omega
    have hd : ((n : ℤ) + 1) / 4 = (n : ℤ) / 4 := by omega
    have ht : TAU_2 < TAU_3 := by unfold TAU_2 TAU_3 DELTA_1 DELTA_2 DELTA_3; norm_num
    simp only [get_time_from_pulses, tau_function, h, hm, hd]
    norm_num
    linarith
  · have hm : ((n : ℤ) + 1) % 4 = 0 := by omega
    have hd : ((n : ℤ) + 1) / 4 = (n : ℤ) / 4 + 1 := by omega
    have ht : TAU_3 < PERIOD := by
      unfold TAU_3 DELTA_1 DELTA_2 DELTA_3 PERIOD; norm_num
    simp only [get_time_from_pulses, tau_function, h, hm, hd]
    push_cast
    norm_num
    linarith

theorem get_time_from_pulses_period (n : ℕ) :
    get_time_from_pulses ((n : ℤ) + 4) = get_time_from_pulses (n : ℤ) + PERIOD := by
  have hm : ((n : ℤ) + 4) % 4 = (n : ℤ) % 4 := by omega
  have hd : ((n : ℤ) + 4) / 4 = (n : ℤ) / 4 + 1 := by omega
  simp only [get_time_from_pulses, tau_function, hm, hd]
  push_cast
  ring

/- ===== claim theorems ===== -/

/-- C5: for every non-negative pulse index `n`, `time_from_start(n)` is
non-negative, strictly increasing in `n`, and shifts by exactly `PERIOD` when
the index advances by one 4-pulse group. -/
theorem timing_model_nonneg_mono_periodic :
    (∀ n : ℕ, 0 ≤ get_time_from_pulses (n : ℤ))
    ∧ StrictMono (fun n : ℕ => get_time_from_pulses (n : ℤ))
    ∧ (∀ n : ℕ, get_time_from_pulses ((n : ℤ) + 4) = get_time_from_pulses (n : ℤ) + PERIOD) := by
  refine ⟨get_time_from_pulses_nonneg, ?_, get_time_from_pulses_period⟩
  apply strictMono_nat_of_lt_succ
  intro n
  have h := get_time_from_pulses_succ_lt n
  simpa using h

/-- C3 counterexample: on the concrete model with `t0 = 0`, `N = 4`, calling
the t0 mutator with the float `1` succeeds and stores `1`, yet the window is
not re-derived (`t_start` keeps its construction-time value, violating
`t_start = t0 - PULSE_WIDTH/2`), and calling the pulse-count mutator with the
non-positive integer `0` succeeds instead of failing. -/
theorem window_not_rederived_counterexample :
    ((BurstFunction.init 0 4 TraceType.PUMP (1, 1)).set_t0 (PyVal.float 1)
        = Except.ok { BurstFunction.init 0 4 TraceType.PUMP (1, 1) with _t0 := 1 })
    ∧ ({ BurstFunction.init 0 4 TraceType.PUMP (1, 1) with _t0 := (1 : ℝ) }).t_start
        ≠ ({ BurstFunction.init 0 4 TraceType.PUMP (1, 1) with _t0 := (1 : ℝ) })._t0
          - PULSE_WIDTH / 2
    ∧ ((BurstFunction.init 0 4 TraceType.PUMP (1, 1)).set_n_pulses (PyVal.int 0)
        = Except.ok { BurstFunction.init 0 4 TraceType.PUMP (1, 1) with _n_pulses := 0 }) := by
  refine ⟨rfl, ?_, rfl⟩
  show (0 : ℝ) - PULSE_WIDTH / 2 ≠ (1 : ℝ) - PULSE_WIDTH / 2
  unfold PULSE_WIDTH
  norm_num

/-- C3 amended: the window `[t_start, t_end]` is derived once, at construction,
as `t_start = t0 - PULSE_WIDTH/2` and `t_end = t_start + time_from_start(N)`;
the mutators `set_t0` and `set_n_pulses` only type-check their argument
(rejecting non-floats resp. non-ints), accept any float t0 and any integer
pulse count including non-positive ones, update the stored field and leave
every other field - in particular the window - unchanged. -/
theorem window_derived_at_construction_only (t_0 : ℝ) (n_pulses : ℤ)
    (pt : TraceType) (p : ℝ × ℝ) (x : ℝ) (m : ℤ) (b : BurstFunction) :
    ((BurstFunction.init t_0 n_pulses pt p).t_start = t_0 - PULSE_WIDTH / 2
      ∧ (BurstFunction.init t_0 n_pulses pt p).t_end
          = t_0 - PULSE_WIDTH / 2 + get_time_from_pulses n_pulses)
    ∧ b.set_t0 (PyVal.float x) = Except.ok { b with _t0 := x }
    ∧ b.set_n_pulses (PyVal.int m) = Except.ok { b with _n_pulses := m }
    ∧ b.set_t0 (PyVal.int m) = Except.error "`value` must be a float."
    ∧ b.set_n_pulses (PyVal.float x) = Except.error "`value` must be an integer." :=
  ⟨⟨rfl, rfl⟩, rfl, rfl, rfl, rfl⟩

/-- C2: `linear_regress_burst` stores the computed regression results on the
engine before the quality gate fires, so they remain available to the caller;
when the computed R² is below the configured threshold the outcome is a
`FitQualityError` carrying the trace name, the computed R² and the threshold,
and when R² is at or above the threshold the results are returned normally. -/
theorem fit_quality_gate_fail_with_data (f : Fitter) (results : RegressionResults) :
    (f.linear_regress_burst results).1.results = some results
    ∧ (results.rsquared < f._fit_qual_thresh →
        (f.linear_regress_burst results).2
          = Except.error { name := f.name
                           rsquared := results.rsquared
                           thresh := f._fit_qual_thresh })
    ∧ (f._fit_qual_thresh ≤ results.rsquared →
        (f.linear_regress_burst results).2 = Except.ok results) := by
  unfold Fitter.linear_regress_burst
  refine ⟨?_, ?_, ?_⟩
  · split <;> rfl
  · intro h
    rw [if_pos h]
  · intro h
    rw [if_neg (not_lt.mpr h)]

/-- Closed instance of the C2 theorem: a below-threshold fit on the trace
named "trc" with R² = 1/2 yields the error payload (name, R², threshold) while
an R² = 1 fit passes. -/
theorem fit_quality_gate_fail_with_data_witness :
    ((({ results := none, name := "trc", _fit_qual_thresh := 95/100 } : Fitter).linear_regress_burst
        { params := [1], rsquared := 1/2, resid := [], df_resid := 1 }).2
      = Except.error { name := "trc", rsquared := 1/2, thresh := 95/100 })
    ∧ ((({ results := none, name := "trc", _fit_qual_thresh := 95/100 } : Fitter).linear_regress_burst
        { params := [1], rsquared := 1, resid := [], df_resid := 1 }).2
      = Except.ok { params := [1], rsquared := 1, resid := [], df_resid := 1 }) :=
  ⟨(fit_quality_gate_fail_with_data _ _).2.1 (by norm_num),
   (fit_quality_gate_fail_with_data _ _).2.2 (by norm_num)⟩

theorem sum_zip_map {α β γ : Type} [AddCommMonoid γ] (f : α → β → γ) (d₁ : α) (d₂ : β) :
    ∀ (xs : List α) (ys : List β), ys.length = xs.length →
      ((xs.zip ys).map (fun p => f p.1 p.2)).sum
        = ∑ i ∈ Finset.range xs.length, f (xs.getD i d₁) (ys.getD i d₂)
  | [], [], _ => by simp
  | [], _ :: _, h => by simp at h
  | _ :: _, [], h => by simp at h
  | x :: xs, y :: ys, h => by
      simp only [List.zip_cons_cons, List.map_cons, List.sum_cons, List.length_cons]
      rw [Finset.sum_range_succ']
      simp only [List.getD_cons_succ, List.getD_cons_zero]
      rw [sum_zip_map f d₁ d₂ xs ys (by simpa using h)]
      exact add_comm _ _

theorem sum_map_getD {α γ : Type} [AddCommMonoid γ] (g : α → γ) (d : α) :
    ∀ xs : List α, (xs.map g).sum = ∑ i ∈ Finset.range xs.length, g (xs.getD i d)
  | [] => by simp
  | x :: xs => by
      simp only [List.map_cons, List.sum_cons, List.length_cons]
      rw [Finset.sum_range_succ']
      simp only [List.getD_cons_succ, List.getD_cons_zero]
      rw [sum_map_getD g d xs]
      exact add_comm _ _

theorem get_r2_eq_r2Spec (data_values function_values : List ℚ)
    (h : function_values.length = data_values.length) :
    Fitter.get_r2 data_values function_values = r2Spec data_values function_values := by
  unfold Fitter.get_r2 r2Spec
  rw [sum_zip_map (fun a b => (a - b) ^ 2) 0 0 data_values function_values h]
  rw [sum_map_getD (fun x => (x - data_values.sum / data_values.length) ^ 2) 0 data_values]

/-- C4 counterexample: with two observed samples and `n_pulses = 2` (so
`n_pulses ≥ n`), `get_adj_r2` does not fail with a DomainError: it returns the
ordinary formula value 1/2 (the denominator `n - n_pulses + 1` is 1 here, so
no degenerate division is even involved). -/
theorem adj_r2_no_domain_error_counterexample :
    Fitter.get_adj_r2 [0, 2] [0, 1] 2 = Except.ok (1/2) := by
  unfold Fitter.get_adj_r2 Fitter.get_r2
  simp only [Except.ok.injEq]
  norm_num [List.zip_cons_cons, List.zip_nil_right]

/-- C4 amended: `get_adj_r2` computes `1 - (1 - R²)·(n-1)/(n - n_pulses + 1)`
unconditionally, for every input including `n_pulses ≥ n` - there is no
DomainError guard in the source (at `n_pulses = n + 1` the numpy division by
the zero denominator produces a non-finite value instead of raising; the
rational embedding follows Lean's division-by-zero convention there). -/
theorem adj_r2_formula_no_guard (data_values function_values : List ℚ)
    (pulse_num : ℤ) (h : function_values.length = data_values.length) :
    Fitter.get_adj_r2 data_values function_values pulse_num
      = Except.ok (1 - (1 - r2Spec data_values function_values)
          * ((data_values.length : ℚ) - 1)
          / ((data_values.length : ℚ) - (pulse_num : ℚ) + 1)) := by
  unfold Fitter.get_adj_r2
  rw [get_r2_eq_r2Spec data_values function_values h]

/-- Closed instance of the C4 amended theorem: an ordinary in-domain call
returns the adjusted-R² formula value (here 3/4). -/
theorem adj_r2_formula_no_guard_witness :
    Fitter.get_adj_r2 [0, 2] [0, 1] 1 = Except.ok (3/4) := by
  have h := adj_r2_formula_no_guard [0, 2] [0, 1] 1 rfl
  rw [h]
  simp only [Except.ok.injEq]
  norm_num [r2Spec, Finset.sum_range_succ, List.getD_cons_zero, List.getD_cons_succ]

/-- C6: `get_chi2_stats` fails with the precondition error when no fit has been
stored, and after a fit returns the pair (chi2 / df_resid, 1 - CDF(chi2, df))
with `chi2` the sum of squared residuals over squared uncertainties; the
chi-squared CDF is the external scipy collaborator, abstracted as an argument. -/
theorem chi2_stats_precondition_and_formula (f : Fitter) (errs : List ℚ)
    (chi2_cdf : ℚ → ℚ → ℚ) :
    (f.results = none →
      f.get_chi2_stats errs chi2_cdf
        = Except.error "`self.results` is None. Must perform fit before calculating test statistics.")
    ∧ (∀ r : RegressionResults, f.results = some r → errs.length = r.resid.length →
        f.get_chi2_stats errs chi2_cdf
          = Except.ok (chiSquaredSpec r.resid errs / r.df_resid,
              1 - chi2_cdf (chiSquaredSpec r.resid errs) r.df_resid)) := by
  constructor
  · intro h
    unfold Fitter.get_chi2_stats
    rw [h]
  · intro r hr hlen
    unfold Fitter.get_chi2_stats
    rw [hr]
    dsimp only
    unfold chiSquaredSpec
    rw [sum_zip_map (fun a b => a ^ 2 / b ^ 2) 0 0 r.resid errs hlen]

/-- Closed instance of the C6 theorem: before any fit the statistics call fails;
after a (stored) fit with residuals [1, 2], unit uncertainties, df = 3 and the
zero CDF stub, it returns (5/3, 1). -/
theorem chi2_stats_precondition_and_formula_witness :
    (({ results := none, name := "w", _fit_qual_thresh := 95/100 } : Fitter).get_chi2_stats
        [1, 1] (fun _ _ => 0)
      = Except.error "`self.results` is None. Must perform fit before calculating test statistics.")
    ∧ (({ results := some { params := [], rsquared := 1, resid := [1, 2], df_resid := 3 },
          name := "w", _fit_qual_thresh := 95/100 } : Fitter).get_chi2_stats
        [1, 1] (fun _ _ => 0)
      = Except.ok (chiSquaredSpec [1, 2] [1, 1] / 3, 1 - 0)) :=
  ⟨(chi2_stats_precondition_and_formula _ [1, 1] (fun _ _ => 0)).1 rfl,
   (chi2_stats_precondition_and_formula _ [1, 1] (fun _ _ => 0)).2
     { params := [], rsquared := 1, resid := [1, 2], df_resid := 3 } rfl rfl⟩

theorem getD_map_range (g : ℕ → ℝ) (k i : ℕ) (h : i < k) :
    ((List.range k).map g).getD i 0 = g i := by
  have hlen : i < ((List.range k).map g).length := by simpa using h
  rw [List.getD_eq_getElem _ _ hlen]
  simp

theorem dotList_map_range (g : ℕ → ℝ) (k : ℕ) (ys : List ℝ) (h : ys.length = k) :
    dotList ((List.range k).map g) ys = ∑ j ∈ Finset.range k, g j * ys.getD j 0 := by
  unfold dotList
  rw [sum_zip_map (fun a b => a * b) 0 0 ((List.range k).map g) ys (by simpa using h)]
  simp only [List.length_map, List.length_range]
  refine Finset.sum_congr rfl ?_
  intro j hj
  rw [getD_map_range g k j (Finset.mem_range.mp hj)]

/-- C7: `burst_function` fails with the shape-mismatch error exactly when the
amplitude vector length differs from the pulse count, and otherwise returns the
regressor-matrix product: entry `i` is the sum over pulse indices `j` of the
normalized shape evaluated at `t_i - (t0 - delay) - time_from_start(j)` times
amplitude `j`. -/
theorem burst_function_shape_gate (bf : BurstFunction) (times amps : List ℝ) :
    ((amps.length : ℤ) ≠ bf._n_pulses →
      bf.burst_function times amps
        = Except.error "Number of amplitudes must equal number of pulses.")
    ∧ ((amps.length : ℤ) = bf._n_pulses →
      bf.burst_function times amps
        = Except.ok (times.map (fun t =>
            ∑ j ∈ Finset.range amps.length,
              bf.pulse_shape.norm_pulse_shape
                (t - (bf._t0 - TRACE_DELAY_IDX bf.ptype) - get_time_from_pulses (j : ℤ))
                bf.pulse_shape.parameters * amps.getD j 0))) := by
  constructor
  · intro h
    unfold BurstFunction.burst_function
    rw [if_pos h]
  · intro h
    have hk : bf._n_pulses.toNat = amps.length := by omega
    unfold BurstFunction.burst_function
    rw [if_neg (by omega)]
    unfold BurstFunction.get_pulse_matrix
    dsimp only
    rw [List.map_map]
    congr 1
    apply List.map_congr_left
    intro t _
    dsimp only [Function.comp]
    rw [List.map_map]
    rw [dotList_map_range _ _ amps hk.symm, hk]
    rfl

/-- Closed instance of the C7 theorem: an N = 1 model rejects a length-2
amplitude vector and evaluates a length-1 amplitude vector to the
matrix-vector product. -/
theorem burst_function_shape_gate_witness :
    ((BurstFunction.init 0 1 TraceType.PUMP (1, 1)).burst_function [0] [1, 2]
        = Except.error "Number of amplitudes must equal number of pulses.")
    ∧ ((BurstFunction.init 0 1 TraceType.PUMP (1, 1)).burst_function [0] [2]
        = Except.ok (([0] : List ℝ).map (fun t =>
            ∑ j ∈ Finset.range ([2] : List ℝ).length,
              (BurstFunction.init 0 1 TraceType.PUMP (1, 1)).pulse_shape.norm_pulse_shape
                (t - ((BurstFunction.init 0 1 TraceType.PUMP (1, 1))._t0
                    - TRACE_DELAY_IDX (BurstFunction.init 0 1 TraceType.PUMP (1, 1)).ptype)
                  - get_time_from_pulses (j : ℤ))
                (BurstFunction.init 0 1 TraceType.PUMP (1, 1)).pulse_shape.parameters
              * ([2] : List ℝ).getD j 0))) :=
  ⟨(burst_function_shape_gate _ [0] [1, 2]).1 (by norm_num [BurstFunction.init]),
   (burst_function_shape_gate _ [0] [2]).2 (by norm_num [BurstFunction.init])⟩

theorem branch_value_gaussian_at_delta (sig lam : ℝ) :
    gaussian_branch sig (delta_t_cond sig lam) = h2_cond sig lam := rfl

theorem branch_value_tail_at_delta (sig lam : ℝ) :
    exp_tail_branch sig lam (delta_t_cond sig lam) = h2_cond sig lam := by
  unfold exp_tail_branch
  simp

theorem pulse_shape_eq_piecewise (q : ℝ × ℝ) (sig lam t : ℝ) :
    (GaussianExp.init q).pulse_shape t (sig, lam)
      = if t ≤ delta_t_cond sig lam then gaussian_branch sig t
        else exp_tail_branch sig lam t := by
  have hL : (GaussianExp.init q).pulse_shape t (sig, lam)
      = gaussian_branch sig t
          * (1 - heaviside (t - delta_t_cond sig lam) (h2_cond sig lam))
        + exp_tail_branch sig lam t
          * heaviside (t - delta_t_cond sig lam) (h2_cond sig lam) := rfl
  rw [hL]
  rcases lt_trichotomy t (delta_t_cond sig lam) with h | h | h
  · rw [if_pos h.le]
    unfold heaviside
    rw [if_pos (by linarith)]
    ring
  · rw [if_pos h.le]
    unfold heaviside
    rw [if_neg (by linarith), if_pos (by linarith)]
    subst h
    rw [branch_value_gaussian_at_delta, branch_value_tail_at_delta]
    ring
  · rw [if_neg (not_le.mpr h)]
    unfold heaviside
    rw [if_neg (by linarith), if_neg (by intro hc; linarith)]
    ring

theorem gaussian_branch_continuous (sig : ℝ) : Continuous (gaussian_branch sig) := by
  have h : gaussian_branch sig
      = fun t : ℝ => Real.exp (-t ^ 2 * (2 * sig ^ 2)⁻¹) := by
    funext t
    unfold gaussian_branch
    rw [div_eq_mul_inv]
  rw [h]
  exact Real.continuous_exp.comp (((continuous_pow 2).neg).mul continuous_const)

theorem exp_tail_branch_continuous (sig lam : ℝ) :
    Continuous (exp_tail_branch sig lam) := by
  have h : exp_tail_branch sig lam
      = fun t : ℝ => h2_cond sig lam
          * Real.exp (-lam * (t - delta_t_cond sig lam)) := rfl
  rw [h]
  exact continuous_const.mul
    (Real.continuous_exp.comp (continuous_const.mul (continuous_id.sub continuous_const)))

theorem pulse_shape_continuousAt_delta (q : ℝ × ℝ) (sig lam : ℝ) :
    ContinuousAt (fun t => (GaussianExp.init q).pulse_shape t (sig, lam))
      (delta_t_cond sig lam) := by
  have hfe : (fun t => (GaussianExp.init q).pulse_shape t (sig, lam))
      = fun t => if t ≤ delta_t_cond sig lam then gaussian_branch sig t
          else exp_tail_branch sig lam t := by
    funext t
    exact pulse_shape_eq_piecewise q sig lam t
  rw [hfe]
  apply Continuous.continuousAt
  apply Continuous.if_le (gaussian_branch_continuous sig)
    (exp_tail_branch_continuous sig lam) continuous_id continuous_const
  intro x hx
  have hx2 : x = delta_t_cond sig lam := hx
  rw [hx2, branch_value_gaussian_at_delta, branch_value_tail_at_delta]

theorem gaussian_branch_hasDerivAt (sig lam : ℝ) (hs : sig ≠ 0) :
    HasDerivAt (gaussian_branch sig) (-lam * h2_cond sig lam)
      (delta_t_cond sig lam) := by
  have hpow : HasDerivAt (fun t : ℝ => t ^ 2) (2 * delta_t_cond sig lam)
      (delta_t_cond sig lam) := by
    simpa using hasDerivAt_pow 2 (delta_t_cond sig lam)
  have hin : HasDerivAt (fun t : ℝ => -t ^ 2 / (2 * sig ^ 2))
      (-(2 * delta_t_cond sig lam) / (2 * sig ^ 2)) (delta_t_cond sig lam) := by
    simpa [neg_div] using (hpow.neg.div_const (2 * sig ^ 2))
  have hexp := hin.exp
  have hg : gaussian_branch sig = fun t : ℝ => Real.exp (-t ^ 2 / (2 * sig ^ 2)) := rfl
  rw [hg]
  convert hexp using 1
  unfold h2_cond delta_t_cond
  have hs2 : sig ^ 2 ≠ 0 := pow_ne_zero 2 hs
  field_simp
  ring

theorem exp_tail_branch_hasDerivAt (sig lam : ℝ) :
    HasDerivAt (exp_tail_branch sig lam) (-lam * h2_cond sig lam)
      (delta_t_cond sig lam) := by
  have hin : HasDerivAt (fun t : ℝ => -lam * (t - delta_t_cond sig lam)) (-lam)
      (delta_t_cond sig lam) := by
    simpa using
      ((hasDerivAt_id (delta_t_cond sig lam)).sub_const (delta_t_cond sig lam)).const_mul (-lam)
  have hexp := hin.exp
  have hmul := hexp.const_mul (h2_cond sig lam)
  have he : exp_tail_branch sig lam
      = fun t : ℝ => h2_cond sig lam * Real.exp (-lam * (t - delta_t_cond sig lam)) := rfl
  rw [he]
  convert hmul using 1
  rw [sub_self, mul_zero, Real.exp_zero]
  ring

/-- C1: for every sigma > 0 and lambda > 0, the Gaussian branch and the
exponential-tail branch of the Gaussian-with-exponential-tail shape take the
same value at the split point `delta_t = lam * sig^2`, both have derivative
`-lam * h2` there (so the one-sided derivatives agree), and the full piecewise
`pulse_shape` is continuous at the split point. -/
theorem gaussian_exp_continuity_and_derivative (sig lam : ℝ)
    (hs : 0 < sig) (_hl : 0 < lam) :
    gaussian_branch sig (delta_t_cond sig lam)
        = exp_tail_branch sig lam (delta_t_cond sig lam)
    ∧ HasDerivAt (gaussian_branch sig) (-lam * h2_cond sig lam) (delta_t_cond sig lam)
    ∧ HasDerivAt (exp_tail_branch sig lam) (-lam * h2_cond sig lam) (delta_t_cond sig lam)
    ∧ ContinuousAt (fun t => (GaussianExp.init (sig, lam)).pulse_shape t (sig, lam))
        (delta_t_cond sig lam) := by
  refine ⟨?_, gaussian_branch_hasDerivAt sig lam (ne_of_gt hs),
    exp_tail_branch_hasDerivAt sig lam,
    pulse_shape_continuousAt_delta (sig, lam) sig lam⟩
  rw [branch_value_gaussian_at_delta, branch_value_tail_at_delta]

/-- Closed instance of the C1 theorem at `sigma = 1`, `lambda = 1`. -/
theorem gaussian_exp_continuity_and_derivative_witness :
    gaussian_branch 1 (delta_t_cond 1 1) = exp_tail_branch 1 1 (delta_t_cond 1 1)
    ∧ HasDerivAt (gaussian_branch 1) (-1 * h2_cond 1 1) (delta_t_cond 1 1)
    ∧ HasDerivAt (exp_tail_branch 1 1) (-1 * h2_cond 1 1) (delta_t_cond 1 1)
    ∧ ContinuousAt (fun t => (GaussianExp.init (1, 1)).pulse_shape t (1, 1))
        (delta_t_cond 1 1) :=
  gaussian_exp_continuity_and_derivative 1 1 one_pos one_pos

/-- C8: for every loaded parameter pair and every passed parameters with
sigma > 0 and lambda > 0, the normalized evaluation of the
Gaussian-with-exponential-tail shape at `t = 0` is exactly 1 (the shape is
peak-normalized at zero, and `norm_pulse_shape` skips the normalization
division altogether). -/
theorem norm_pulse_shape_peak_normalized (q : ℝ × ℝ) (sig lam : ℝ)
    (hs : 0 < sig) (_hl : 0 < lam) :
    (GaussianExp.init q).norm_pulse_shape 0 (sig, lam) = 1 := by
  have hd : (0 : ℝ) ≤ delta_t_cond sig lam := by
    unfold delta_t_cond
    positivity
  unfold GaussianExp.norm_pulse_shape
  rw [pulse_shape_eq_piecewise q sig lam 0, if_pos hd]
  unfold gaussian_branch
  norm_num

/-- Closed instance of the C8 theorem at `sigma = 1`, `lambda = 1`. -/
theorem norm_pulse_shape_peak_normalized_witness :
    (GaussianExp.init (1, 1)).norm_pulse_shape 0 (1, 1) = 1 :=
  norm_pulse_shape_peak_normalized (1, 1) 1 1 one_pos one_pos

theorem pulse_shape_performant_eval (s : GaussianExp) (hs : s.make_performant = true)
    (t : ℝ) (p : ℝ × ℝ) :
    s.pulse_shape t p
      = Real.exp (-t ^ 2 / (2 * s.parameters.1 ^ 2))
          * (1 - heaviside (t - s.delta_t) s.h2)
        + s.h2 * Real.exp (-s.parameters.2 * (t - s.delta_t))
          * heaviside (t - s.delta_t) s.h2 := by
  unfold GaussianExp.pulse_shape
  rw [hs]
  simp [mul_assoc]

/-- C10 counterexample: switch the shape of a concrete burst model to fast
mode (stored parameters (1, 1), hence precomputed `delta_t = 1` and
`h2 = exp(-1/2)`), then update the parameters to (2, 1) through
`set_pulse_params`.  Evaluation at `t = 1/2` changes (from `exp(-1/8)` to
`exp(-1/32)`), because the performant branch re-reads sigma and lambda from the
stored parameters even though `delta_t` and `h2` stay stale - contradicting the
claim that a later `set_pulse_params` does not affect the evaluated shape. -/
theorem performant_stale_params_counterexample :
    (performantBurst.set_pulse_params (2, 1)).pulse_shape.pulse_shape (1/2) (1, 1)
      ≠ performantBurst.pulse_shape.pulse_shape (1/2) (1, 1) := by
  have h1 : performantBurst.pulse_shape.make_performant = true := rfl
  have h2 : (performantBurst.set_pulse_params (2, 1)).pulse_shape.make_performant = true := rfl
  rw [pulse_shape_performant_eval _ h2, pulse_shape_performant_eval _ h1]
  have hp1 : performantBurst.pulse_shape.parameters = ((1 : ℝ), (1 : ℝ)) := rfl
  have hp2 : (performantBurst.set_pulse_params (2, 1)).pulse_shape.parameters
      = ((2 : ℝ), (1 : ℝ)) := rfl
  have hd1 : performantBurst.pulse_shape.delta_t = 1 * 1 ^ 2 := rfl
  have hd2 : (performantBurst.set_pulse_params (2, 1)).pulse_shape.delta_t = 1 * 1 ^ 2 := rfl
  have hh1 : performantBurst.pulse_shape.h2
      = Real.exp (-(1 * 1 ^ 2) ^ 2 / (2 * 1 ^ 2)) := rfl
  have hh2 : (performantBurst.set_pulse_params (2, 1)).pulse_shape.h2
      = Real.exp (-(1 * 1 ^ 2) ^ 2 / (2 * 1 ^ 2)) := rfl
  rw [hp1, hp2, hd1, hd2, hh1, hh2]
  have hstep : heaviside ((1 : ℝ)/2 - 1 * 1 ^ 2) (Real.exp (-(1 * 1 ^ 2) ^ 2 / (2 * 1 ^ 2))) = 0 := by
    unfold heaviside
    rw [if_pos (by norm_num)]
  rw [hstep]
  simp only [mul_zero, add_zero, sub_zero, mul_one]
  intro hEq
  have hexp := Real.exp_injective hEq
  norm_num at hexp

/-- C10 amended: a freshly constructed shape is in non-performant mode, where
evaluation is a function of the explicit arguments only (two states agree on
every input); in performant mode the passed params argument is ignored, and
`set_pulse_params` overwrites the stored sigma and lambda while leaving the
precomputed `delta_t` and `h2` and the mode flag untouched - so a later
`set_pulse_params` does affect the evaluated shape, through the new sigma and
lambda combined with the stale `delta_t` and `h2`. -/
theorem pulse_shape_dependency_amended (s s' : GaussianExp) (b : BurstFunction)
    (t : ℝ) (p p' : ℝ × ℝ) :
    ((GaussianExp.init p).make_performant = false)
    ∧ (s.make_performant = false → s'.make_performant = false →
        s.pulse_shape t p = s'.pulse_shape t p)
    ∧ (s.make_performant = true → s.pulse_shape t p = s.pulse_shape t p')
    ∧ ((b.set_pulse_params p').pulse_shape.delta_t = b.pulse_shape.delta_t
        ∧ (b.set_pulse_params p').pulse_shape.h2 = b.pulse_shape.h2
        ∧ (b.set_pulse_params p').pulse_shape.parameters = p'
        ∧ (b.set_pulse_params p').pulse_shape.make_performant
            = b.pulse_shape.make_performant) := by
  refine ⟨rfl, ?_, ?_, rfl, rfl, rfl, rfl⟩
  · intro h h'
    unfold GaussianExp.pulse_shape
    rw [h, h']
    simp
  · intro h
    unfold GaussianExp.pulse_shape
    rw [h]
    simp

/-- Closed instance of the C10 amended theorem: two fresh shapes agree on the
same explicit arguments; a performant shape ignores the passed params; and
`set_pulse_params` keeps the precomputed `delta_t`. -/
theorem pulse_shape_dependency_amended_witness :
    ((GaussianExp.init ((3 : ℝ), (4 : ℝ))).make_performant = false)
    ∧ ((GaussianExp.init (1, 1)).pulse_shape 0 (3, 4)
        = (GaussianExp.init (2, 5)).pulse_shape 0 (3, 4))
    ∧ (performantBurst.pulse_shape.pulse_shape 0 (3, 4)
        = performantBurst.pulse_shape.pulse_shape 0 (6, 7))
    ∧ ((performantBurst.set_pulse_params (9, 9)).pulse_shape.delta_t
        = performantBurst.pulse_shape.delta_t) :=
  ⟨(pulse_shape_dependency_amended (GaussianExp.init (1, 1)) (GaussianExp.init (2, 5))
      performantBurst 0 (3, 4) (6, 7)).1,
   (pulse_shape_dependency_amended (GaussianExp.init (1, 1)) (GaussianExp.init (2, 5))
      performantBurst 0 (3, 4) (6, 7)).2.1 rfl rfl,
   (pulse_shape_dependency_amended performantBurst.pulse_shape (GaussianExp.init (2, 5))
      performantBurst 0 (3, 4) (6, 7)).2.2.1 rfl,
   (pulse_shape_dependency_amended performantBurst.pulse_shape (GaussianExp.init (2, 5))
      performantBurst 0 (3, 4) (9, 9)).2.2.2.1⟩

theorem maskSelect_cons {α : Type} (b : Bool) (bs : List Bool) (x : α) (xs : List α) :
    maskSelect (b :: bs) (x :: xs)
      = if b then x :: maskSelect bs xs else maskSelect bs xs := by
  cases b <;> simp [maskSelect]

theorem maskSelect_length_eq {α β : Type} :
    ∀ (m : List Bool) (xs : List α) (ys : List β), ys.length = xs.length →
      (maskSelect m ys).length = (maskSelect m xs).length
  | [], _, _, _ => by simp [maskSelect]
  | _ :: _, [], [], _ => by simp [maskSelect]
  | _ :: _, [], _ :: _, h => by simp at h
  | _ :: _, _ :: _, [], h => by simp at h
  | b :: bs, x :: xs, y :: ys, h => by
      rw [maskSelect_cons, maskSelect_cons]
      have ih := maskSelect_length_eq bs xs ys (by simpa using h)
      cases b <;> simp [ih]

theorem maskSelect_zip_filter {α β : Type} (pred : α → Bool) :
    ∀ (ts : List α) (ds : List β), ds.length = ts.length →
      (maskSelect (ts.map pred) ts).zip (maskSelect (ts.map pred) ds)
        = (ts.zip ds).filter (fun q => pred q.1)
  | [], [], _ => by simp [maskSelect]
  | [], _ :: _, h => by simp at h
  | _ :: _, [], h => by simp at h
  | t :: ts, d :: ds, h => by
      have ih := maskSelect_zip_filter pred ts ds (by simpa using h)
      simp only [List.map_cons]
      rw [maskSelect_cons, maskSelect_cons]
      by_cases hp : pred t
      · rw [if_pos hp, if_pos hp]
        simp [List.filter_cons, hp, ih]
      · rw [if_neg hp, if_neg hp]
        simp [List.filter_cons, hp, ih]

theorem maskSelect_self_filter {α : Type} (pred : α → Bool) :
    ∀ ts : List α, maskSelect (ts.map pred) ts = ts.filter pred
  | [] => by simp [maskSelect]
  | t :: ts => by
      simp only [List.map_cons]
      rw [maskSelect_cons]
      have ih := maskSelect_self_filter pred ts
      by_cases hp : pred t
      · simp [List.filter_cons, hp, ih]
      · simp [List.filter_cons, hp, ih]

/-- C9: for a well-formed trace (equal-length time and data sequences),
`make_restricted` returns a fresh trace whose (time, value) pairs are exactly
those of the original with `t_start <= t <= t_end` (endpoints included, order
preserved); the units carry over, and, the embedding being pure, the original
trace's sequences are untouched by construction. -/
theorem make_restricted_filters_closed_interval (tr : DataTrace) (a b : ℚ)
    (h : tr._data_values.length = tr._time_values.length) :
    ∃ tr' : DataTrace,
      tr.make_restricted a b = Except.ok tr'
      ∧ tr'._time_values.zip tr'._data_values
          = (tr._time_values.zip tr._data_values).filter
              (fun q => decide (a ≤ q.1) && decide (q.1 ≤ b))
      ∧ tr'._time_values
          = tr._time_values.filter (fun t => decide (a ≤ t) && decide (t ≤ b))
      ∧ tr'.time_units = tr.time_units ∧ tr'.data_units = tr.data_units := by
  have hlen := maskSelect_length_eq
    (tr._time_values.map (fun t => decide (a ≤ t) && decide (t ≤ b)))
    tr._time_values tr._data_values h
  unfold DataTrace.make_restricted DataTrace.init
  dsimp only
  rw [if_neg (by simp [hlen])]
  refine ⟨_, rfl, ?_, ?_, rfl, rfl⟩
  · exact maskSelect_zip_filter (fun t => decide (a ≤ t) && decide (t ≤ b))
      tr._time_values tr._data_values h
  · exact maskSelect_self_filter (fun t => decide (a ≤ t) && decide (t ≤ b))
      tr._time_values

/-- Closed instance of the C9 theorem: restricting the trace with times
[0, 1, 2] and values [5, 6, 7] to the closed interval [1, 2]. -/
theorem make_restricted_filters_closed_interval_witness :
    ∃ tr' : DataTrace,
      ({ trace_len := 3, _time_values := [0, 1, 2], _data_values := [5, 6, 7],
         time_units := "s", data_units := "V" } : DataTrace).make_restricted 1 2
        = Except.ok tr'
      ∧ tr'._time_values.zip tr'._data_values
          = (([0, 1, 2] : List ℚ).zip ([5, 6, 7] : List ℚ)).filter
              (fun q => decide ((1 : ℚ) ≤ q.1) && decide (q.1 ≤ (2 : ℚ)))
      ∧ tr'._time_values
          = ([0, 1, 2] : List ℚ).filter (fun t => decide ((1 : ℚ) ≤ t) && decide (t ≤ (2 : ℚ)))
      ∧ tr'.time_units = "s" ∧ tr'.data_units = "V" :=
  make_restricted_filters_closed_interval
    { trace_len := 3, _time_values := [0, 1, 2], _data_values := [5, 6, 7],
      time_units := "s", data_units := "V" } 1 2 rfl
